import Mathlib

/-!
Verification of the airtable-scraper repository.

The development shallowly embeds the Python sources
(src/airtable_scraper/typing.py, table_utils.py, _models.py,
airtable_scraper.py) over a JSON-like value type.  Python exceptions are
modelled with Except, Python None-returning fallbacks with Option, and the
external libraries the code leans on (datetime/strptime/strftime, pytz for
the zones actually exercised, dateutil.parser via an explicit predicate
parameter) are embedded to the extent the code exercises them.
-/

/-- JSON-like value: the shape of every raw Airtable cell value and of the
raw table payload (scalars, arrays, string-keyed objects). Object fields are
kept as an ordered association list, matching Python dict insertion order. -/
inductive JVal where
  | null : JVal
  | bool (b : Bool) : JVal
  | num (n : Int) : JVal
  | str (s : String) : JVal
  | arr (xs : List JVal) : JVal
  | obj (fields : List (String × JVal)) : JVal

/-- Python dict `.get(k)`: the value at key k, or None when absent. -/
def objGet (fs : List (String × JVal)) (k : String) : JVal :=
  match fs.lookup k with
  | some v => v
  | none => .null

/-- Python truthiness of a JSON value (None, False, 0, empty string, empty
list and empty dict are falsy). -/
def jTruthy : JVal → Bool
  | .null => false
  | .bool b => b
  | .num n => n != 0
  | .str s => s ≠ ""
  | .arr xs => !xs.isEmpty
  | .obj fs => !fs.isEmpty

/-- A scalar value: not a raw nested structure (not a list, not a mapping). -/
def isScalarB : JVal → Bool
  | .arr _ => false
  | .obj _ => false
  | _ => true

/-- Python repr of a string: the text between apostrophes.  (repr escaping of
special characters inside the string is not modelled; no input exercised here
contains them.) -/
def quoteRepr (s : String) : String :=
  String.singleton (Char.ofNat 39) ++ s ++ String.singleton (Char.ofNat 39)

mutual
/-- Python repr() of a JSON value, as used for elements nested inside a
container being stringified. -/
def pyRepr : JVal → String
  | .null => "None"
  | .bool true => "True"
  | .bool false => "False"
  | .num n => toString n
  | .str s => quoteRepr s
  | .arr xs => "[" ++ String.intercalate ", " (pyReprList xs) ++ "]"
  | .obj fs => "\x7b" ++ String.intercalate ", " (pyReprObj fs) ++ "\x7d"
termination_by structural v => v

def pyReprList : List JVal → List String
  | [] => []
  | x :: xs => pyRepr x :: pyReprList xs
termination_by structural l => l

def pyReprObj : List (String × JVal) → List String
  | [] => []
  | (k, v) :: fs => (quoteRepr k ++ ": " ++ pyRepr v) :: pyReprObj fs
termination_by structural l => l
end

/-- Python str() of a JSON value: a string prints as itself, every other
value prints as its repr. -/
def pyStr : JVal → String
  | .str s => s
  | v => pyRepr v

/-- Whitespace for Python str.strip / the \s class of the re module
(space, tab, newline, carriage return, form feed, vertical tab). -/
def isPyWhitespace (c : Char) : Bool :=
  c = ' ' || c = '\t' || c = '\n' || c = '\r' || c = Char.ofNat 11 || c = Char.ofNat 12

/-- Python str.strip(): drop whitespace from both ends. -/
def pyStrip (s : String) : String :=
  String.mk (((s.data.dropWhile isPyWhitespace).reverse.dropWhile isPyWhitespace).reverse)

/-! ## Calendar and timezone arithmetic

The date handler relies on datetime/pytz.  Dates are linearized to days
since 1970-01-01 with the standard civil-calendar algorithms; instants are
minutes since the epoch.  The only zones the development exercises are
America/New_York (with the post-2007 US daylight-saving rule, the rule in
force for every instant appearing in the claims) and UTC. -/

/-- Days from 1970-01-01 to year-month-day (proleptic Gregorian). -/
def daysFromCivil (y m d : Int) : Int :=
  let y := if m ≤ 2 then y - 1 else y
  let era := (if 0 ≤ y then y else y - 399).ediv 400
  let yoe := y - era * 400
  let doy := (153 * (if m > 2 then m - 3 else m + 9) + 2).ediv 5 + d - 1
  let doe := yoe * 365 + yoe.ediv 4 - yoe.ediv 100 + doy
  era * 146097 + doe - 719468

/-- Inverse of daysFromCivil: (year, month, day) of a day count. -/
def civilFromDays (z : Int) : Int × Int × Int :=
  let z := z + 719468
  let era := (if 0 ≤ z then z else z - 146096).ediv 146097
  let doe := z - era * 146097
  let yoe := (doe - doe.ediv 1460 + doe.ediv 36524 - doe.ediv 146096).ediv 365
  let y := yoe + era * 400
  let doy := doe - (365 * yoe + yoe.ediv 4 - yoe.ediv 100)
  let mp := (5 * doy + 2).ediv 153
  let d := doy - (153 * mp + 2).ediv 5 + 1
  let m := if mp < 10 then mp + 3 else mp - 9
  (if m ≤ 2 then y + 1 else y, m, d)

/-- Day of week of a day count, 0 = Sunday (1970-01-01 was a Thursday). -/
def weekdayOfDays (z : Int) : Int :=
  (z + 4).emod 7

/-- Day of month of the first Sunday of month m of year y that is ≥ startDay. -/
def firstSundayFrom (y m startDay : Int) : Int :=
  startDay + (7 - weekdayOfDays (daysFromCivil y m startDay)).emod 7

/-- UTC offset of America/New_York in minutes at a UTC instant (minutes since
epoch): -240 during daylight saving (second Sunday of March 07:00 UTC up to
first Sunday of November 06:00 UTC, the US rule since 2007), else -300. -/
def nyOffsetMinutes (t : Int) : Int :=
  let y := (civilFromDays (t.ediv 1440)).1
  let dstStart := daysFromCivil y 3 (firstSundayFrom y 3 8) * 1440 + 7 * 60
  let dstEnd := daysFromCivil y 11 (firstSundayFrom y 11 1) * 1440 + 6 * 60
  if dstStart ≤ t && t < dstEnd then -240 else -300

/-- pytz.timezone restricted to the zones this development exercises: the
offset (as a function of the UTC instant) for a zone name, or none for an
unknown zone (pytz raises UnknownTimeZoneError there). -/
def tzOffsetFn (tz : String) : Option (Int → Int) :=
  if tz = "America/New_York" then some nyOffsetMinutes
  else if tz = "UTC" then some (fun _ => 0)
  else none

/-- A broken-down naive datetime as produced by datetime.strptime. -/
structure NaiveDT where
  year : Int
  month : Int
  day : Int
  hour : Int
  minute : Int
  second : Int

def isLeapYear (y : Int) : Bool :=
  y.emod 4 = 0 && (y.emod 100 ≠ 0 || y.emod 400 = 0)

def daysInMonth (y m : Int) : Int :=
  if m = 2 then (if isLeapYear y then 29 else 28)
  else if m = 4 || m = 6 || m = 9 || m = 11 then 30
  else 31

/-- Read exactly n decimal digits. -/
def readDigits : Nat → List Char → Option (Nat × List Char)
  | 0, cs => some (0, cs)
  | n + 1, c :: cs =>
    if c.isDigit then
      match readDigits n cs with
      | some (v, rest) => some ((c.toNat - 48) * 10 ^ n + v, rest)
      | none => none
    else none
  | _ + 1, [] => none

def expectChar (c : Char) : List Char → Option (List Char)
  | d :: cs => if d = c then some cs else none
  | [] => none

/-- Between 1 and 6 digits for the %f microsecond field (value discarded:
the code immediately replaces the parsed tzinfo and the formats printed
never show subseconds). -/
def skipMicro : List Char → Option (List Char)
  | c :: cs =>
    if c.isDigit then
      let ds := (c :: cs).takeWhile Char.isDigit
      if ds.length ≤ 6 then some ((c :: cs).drop ds.length) else none
    else none
  | [] => none

/-- A %z timezone token consuming the rest of the input: Z, z, or a signed
offset sHHMM / sHH:MM.  The offset value is discarded by the caller (the
code overwrites tzinfo with UTC right after parsing). -/
def offsetToEnd (cs : List Char) : Bool :=
  match cs with
  | ['Z'] => true
  | ['z'] => true
  | sgn :: rest =>
    (sgn = '+' || sgn = '-') &&
      (match rest with
       | [h1, h2, m1, m2] => h1.isDigit && h2.isDigit && m1.isDigit && m2.isDigit
       | [h1, h2, ':', m1, m2] => h1.isDigit && h2.isDigit && m1.isDigit && m2.isDigit
       | _ => false)
  | [] => false

/-- datetime.strptime(value, "%Y-%m-%dT%H:%M:%S.%f%z"): parse or fail
(ValueError), validating field ranges.  The %z offset is syntax-checked and
discarded, since cast_to_str replaces tzinfo with UTC immediately. -/
def strptime_iso_tz (s : String) : Option NaiveDT := do
  let cs := s.data
  let (y, cs) ← readDigits 4 cs
  let cs ← expectChar '-' cs
  let (mo, cs) ← readDigits 2 cs
  let cs ← expectChar '-' cs
  let (d, cs) ← readDigits 2 cs
  let cs ← expectChar 'T' cs
  let (h, cs) ← readDigits 2 cs
  let cs ← expectChar ':' cs
  let (mi, cs) ← readDigits 2 cs
  let cs ← expectChar ':' cs
  let (sec, cs) ← readDigits 2 cs
  let cs ← expectChar '.' cs
  let cs ← skipMicro cs
  if offsetToEnd cs &&
      decide (1 ≤ mo) && decide (mo ≤ 12) && decide (1 ≤ d) &&
      decide ((d : Int) ≤ daysInMonth y mo) && decide (h ≤ 23) &&
      decide (mi ≤ 59) && decide (sec ≤ 59) then
    some ⟨y, mo, d, h, mi, sec⟩
  else none

def monthName (m : Int) : String :=
  if m = 1 then "January" else if m = 2 then "February" else if m = 3 then "March"
  else if m = 4 then "April" else if m = 5 then "May" else if m = 6 then "June"
  else if m = 7 then "July" else if m = 8 then "August" else if m = 9 then "September"
  else if m = 10 then "October" else if m = 11 then "November" else "December"

def pad2 (n : Int) : String :=
  if n < 10 then "0" ++ toString n else toString n

/-- strftime("%B %d, %Y") on an instant given in local minutes since epoch:
full month name, zero-padded day of month, comma, year. -/
def fmtLongDate (mins : Int) : String :=
  let (y, m, d) := civilFromDays (mins.ediv 1440)
  monthName m ++ " " ++ pad2 d ++ ", " ++ toString y

/-- strftime("%m/%d/%Y %I:%M%p").lower() on an instant in local minutes
since epoch: zero-padded month/day/year and 12-hour clock, am/pm lowered. -/
def fmtClockLower (mins : Int) : String :=
  let (y, m, d) := civilFromDays (mins.ediv 1440)
  let minOfDay := mins.emod 1440
  let h24 := minOfDay.ediv 60
  let h12 := if h24.emod 12 = 0 then 12 else h24.emod 12
  pad2 m ++ "/" ++ pad2 d ++ "/" ++ toString y ++ " " ++ pad2 h12 ++ ":" ++
    pad2 (minOfDay.emod 60) ++ (if h24 < 12 then "am" else "pm")

/-! ## typing.py -/

/-- typing.py join_list_like: empty (falsy) input gives "", otherwise the
sep-join of str(v) per element with None rendered as the empty string. -/
def join_list_like (lst : List JVal) (sep : String) : String :=
  if lst.isEmpty then ""
  else String.intercalate sep (lst.map (fun v => match v with
    | .null => ""
    | w => pyStr w))

/-- typing.py cast_to_str.  is_dateP stands for typing.py is_date, i.e.
dateutil.parser.parse acceptance; it is a parameter because dateutil is an
external library, and each concrete theorem instantiates it.  The branches
follow the source: None first; a string is date-formatted when is_date
accepts it (strptime raising ValueError when the exact format does not
match) and otherwise falls through to str(value), which is the string
itself; list/tuple/set and dict are joined; anything else is str(value).
In date mode the instant is reinterpreted as UTC (tzinfo replaced), moved to
the target zone, and in date_only mode advanced by one day. -/
def cast_to_str (is_dateP : String → Bool) (value : JVal) (sep tz : String)
    (date_only : Bool) : Except String String :=
  match value with
  | .null => .ok ""
  | .str s =>
    if is_dateP s then
      match strptime_iso_tz s with
      | none => .error "ValueError: time data does not match format"
      | some dt =>
        match tzOffsetFn tz with
        | none => .error "UnknownTimeZoneError"
        | some off =>
          let utcMin := daysFromCivil dt.year dt.month dt.day * 1440 + dt.hour * 60 + dt.minute
          let locMin := utcMin + off utcMin
          if date_only then .ok (fmtLongDate (locMin + 1440))
          else .ok (fmtClockLower locMin)
    else .ok s
  | .arr xs => .ok (join_list_like xs sep)
  | .obj fs => .ok (join_list_like (fs.map Prod.snd) sep)
  | v => .ok (pyStr v)

/-- typing.py none_filter: str(x) unless None, which becomes "". -/
def none_filter (x : JVal) : String :=
  match x with
  | .null => ""
  | v => pyStr v

/-- The is_date instantiation used by the concrete theorems: acceptance of
the exact ISO-8601-with-offset format.  dateutil also accepts other shapes
(on which cast_to_str then raises in strptime); every concrete input used
below is accepted by both. -/
def is_date_iso (s : String) : Bool :=
  (strptime_iso_tz s).isSome

/-! ## table_utils.py: recursive lookup flattening -/

/-- Python == between a scalar cell value and a dict key, as exercised by
the type_options subscript in flatten_lookup_column_r (only scalars reach
it; Python cross-type bool/int equality is not exercised by any input
here). -/
def jAtomEq : JVal → JVal → Bool
  | .null, .null => true
  | .bool a, .bool b => a = b
  | .num a, .num b => a = b
  | .str a, .str b => a = b
  | _, _ => false

/-- Python dict subscript d[k] over scalar keys: the first binding whose key
equals k, if any. -/
def lookupAtom (m : List (JVal × JVal)) (k : JVal) : Option JVal :=
  match m with
  | [] => none
  | (a, b) :: rest => if jAtomEq a k then some b else lookupAtom rest k

mutual
/-- table_utils.py flatten_lookup_column_r: dict-like elements contribute
their foreignRowDisplayName field (None if absent, via .get), nested lists
are recursed into with a fresh accumulator, and other elements are resolved
through type_options with fallback to the raw element on any lookup failure
(missing key, or type_options being None).  The source's
`if not flat_list: flat_list = []` rebinding is a value-level no-op. -/
def flatten_lookup_column_r (lst : List JVal) (type_options : Option (List (JVal × JVal)))
    (flat_list : List JVal) : List JVal :=
  match lst with
  | [] => flat_list
  | item :: rest =>
    flatten_lookup_column_r rest type_options (flat_list ++ flattenOneItem item type_options)
termination_by structural lst

/-- One iteration of the flatten_lookup_column_r loop body. -/
def flattenOneItem (item : JVal) (type_options : Option (List (JVal × JVal))) : List JVal :=
  match item with
  | .obj fs => [objGet fs "foreignRowDisplayName"]
  | .arr xs => flatten_lookup_column_r xs type_options []
  | v =>
    [match type_options with
     | none => v
     | some m => (lookupAtom m v).getD v]
termination_by structural item
end

/-! ## _models.py -/

/-- _models.py ColumnDefinition (a pydantic model: name and type are
strings, resultType and typeOptions optional). -/
structure ColumnDefinition where
  name : String
  type : String
  resultType : Option String
  typeOptions : Option (List (String × String))

/-- string.punctuation with the underscore removed, as a character class
(codes 33-47, 58-64, 91-96 without 95, 123-126). -/
def isPunctNoUnderscore (c : Char) : Bool :=
  let n := c.toNat
  (33 ≤ n && n ≤ 47) || (58 ≤ n && n ≤ 64) || (91 ≤ n && n ≤ 96 && n ≠ 95) ||
    (123 ≤ n && n ≤ 126)

/-- The sanitized field key a column name is turned into, computed
identically in _models.create_row_model and in _get_table_data:
strip, lower, delete punctuation except underscore, spaces to
underscores. -/
def sanitize_field_name (nm : String) : String :=
  String.mk ((((pyStrip nm).data.map Char.toLower).filter (fun c => !isPunctNoUnderscore c)).map
    (fun c => if c = ' ' then '_' else c))

def isIdentStart (c : Char) : Bool := c.isAlpha || c = '_'

def isIdentChar (c : Char) : Bool := c.isAlphanum || c = '_'

/-- Acceptance of a string as a Python identifier, as required of each field
name by the create_model call string that create_row_model builds and
evals.  (Python keywords are not modelled.) -/
def isPyIdentifier (s : String) : Bool :=
  match s.data with
  | [] => false
  | c :: r => isIdentStart c && r.all isIdentChar

/-- Whether a list of field names contains a repeated name (a repeated
keyword argument makes the eval-ed create_model call a SyntaxError). -/
def hasDupName : List String → Bool
  | [] => false
  | x :: xs => xs.contains x || hasDupName xs

/-- _models.py create_row_model, reduced to what determines row shape: the
ordered list of sanitized field names, one per column in column order, every
field defaulting to None.  The eval of the built source string fails
(SyntaxError) when a field name is not a Python identifier or is repeated.
The table_dtypes argument of the source only widens each field's type
annotation, and every annotation is unioned with Any, so the declared types
never reject a value and are not part of the shape model (the dtypes
computation itself must still succeed; getTableData models that
separately). -/
def create_row_model (col_id_map : List (String × ColumnDefinition)) :
    Except String (List String) :=
  let names := col_id_map.map (fun c => sanitize_field_name c.2.name)
  if names.all isPyIdentifier && !hasDupName names then .ok names
  else .error "SyntaxError: invalid create_model call string"

/-! ## airtable_scraper.py: the per-type cell handler registry -/

/-- Wrap a decoded string in double quotes, as the f-string handlers do. -/
def quoteQ (s : String) : String := "\"" ++ s ++ "\""

/-- The collaborator/computation handler body: user_by_id.get(cell_val).
user_by_id being None (no appBlanket user info) raises AttributeError; an
unhashable cell value raises TypeError; otherwise the lookup yields the
user's name or None. -/
def collabHandler (user_by_id : Option (List (String × String))) (cell_val : JVal) :
    Except String JVal :=
  match user_by_id with
  | none => .error "AttributeError: NoneType has no attribute get"
  | some d =>
    match cell_val with
    | .arr _ => .error "TypeError: unhashable type"
    | .obj _ => .error "TypeError: unhashable type"
    | .str s => .ok ((d.lookup s).elim JVal.null JVal.str)
    | _ => .ok .null

/-- Extract field key from each element of a list of record-like values and
require every extracted value to be a string, as the foreignKey and
multipleAttachment comprehensions do before joining: a missing key raises
KeyError, a non-record element raises TypeError on subscripting, and a
non-string extracted value makes the join raise TypeError. -/
def joinFieldStrings (key : String) (xs : List JVal) : Except String (List String) :=
  xs.mapM (fun (f : JVal) =>
    match f with
    | .obj ff =>
      match ff.lookup key with
      | some (.str s) => Except.ok s
      | some _ => Except.error "TypeError: sequence item is not str"
      | none => Except.error "KeyError"
    | _ => Except.error "TypeError: not subscriptable")

/-- Lift a ColumnDefinition option map (string ids to string labels) to the
generic dict the flattening helper subscripts. -/
def optionMapJ (to_ : Option (List (String × String))) : Option (List (JVal × JVal)) :=
  to_.map (List.map (fun kv => (JVal.str kv.1, JVal.str kv.2)))

/-- The __type_handlers dict built inside _get_table_data (lines 430-468),
keyed by airtable column type, each value the decoding closure for one cell
value.  The closures capture the configured timezone, the appBlanket user
directory and the current column's definition exactly as the source lambdas
capture self.timezone, user_by_id and the loop variable col_def; is_dateP
threads the dateutil acceptance predicate into cast_to_str. -/
def typeHandlers (is_dateP : String → Bool) (tz : String)
    (user_by_id : Option (List (String × String))) (col_def : ColumnDefinition) :
    List (String × (JVal → Except String JVal)) :=
  [("autoNumber", fun cell_val => .ok cell_val),
   ("barcode", fun cell_val =>
     match cell_val with
     | .obj fs => .ok (objGet fs "text")
     | _ => .error "AttributeError: get"),
   ("button", fun cell_val =>
     match cell_val with
     | .obj fs => .ok (objGet fs "url")
     | _ => .error "AttributeError: get"),
   ("checkbox", fun cell_val => .ok (if jTruthy cell_val then .str "checked" else .null)),
   ("collaborator", fun cell_val => collabHandler user_by_id cell_val),
   ("computation", fun cell_val => collabHandler user_by_id cell_val),
   ("count", fun cell_val => .ok cell_val),
   ("date", fun cell_val =>
     (cast_to_str is_dateP cell_val "," tz true).map (fun s => JVal.str (quoteQ s))),
   ("foreignKey", fun cell_val =>
     match cell_val with
     | .arr fs =>
       (joinFieldStrings "foreignRowDisplayName" fs).map
         (fun ns => JVal.str (quoteQ (String.intercalate "," ns)))
     | _ => .error "TypeError: not iterable"),
   ("formula", fun cell_val =>
     (cast_to_str is_dateP cell_val "," tz false).map JVal.str),
   ("lookup", fun cell_val =>
     match cell_val with
     | .obj fs =>
       match fs.lookup "valuesByForeignRowId" with
       | some (.obj vs) =>
         .ok (.str (quoteQ (join_list_like
           (flatten_lookup_column_r (vs.map Prod.snd) (optionMapJ col_def.typeOptions) []) ",")))
       | some _ => .error "AttributeError: values"
       | none => .error "KeyError: valuesByForeignRowId"
     | _ => .error "TypeError: not subscriptable"),
   ("multilineText", fun cell_val => .ok (.str (quoteQ (pyStr cell_val)))),
   ("multipleAttachment", fun cell_val =>
     match cell_val with
     | .arr fs =>
       (joinFieldStrings "filename" fs).map
         (fun ns => JVal.str (quoteQ (String.intercalate "," ns)))
     | _ => .error "TypeError: not iterable"),
   ("multiSelect", fun cell_val =>
     match col_def.typeOptions with
     | none => .error "AttributeError: NoneType has no attribute get"
     | some to_ =>
       match cell_val with
       | .arr vals =>
         (vals.mapM (fun (v : JVal) =>
           match v with
           | .str s =>
             match to_.lookup s with
             | some lbl => Except.ok lbl
             | none => Except.error "TypeError: join of None"
           | _ => Except.error "TypeError: join of None")).map
           (fun ls => JVal.str (quoteQ (String.intercalate "," ls)))
       | _ => .error "TypeError: not iterable"),
   ("number", fun cell_val => .ok cell_val),
   ("phone", fun cell_val => .ok cell_val),
   ("rating", fun cell_val => .ok cell_val),
   ("richText", fun cell_val =>
     match cell_val with
     | .obj fs =>
       match objGet fs "documentValue" with
       | .arr sections =>
         (sections.mapM (fun (sec : JVal) =>
           match sec with
           | .obj sf =>
             match sf.lookup "insert" with
             | some (.str s) => Except.ok s
             | some _ => Except.error "TypeError: join item not str"
             | none => Except.error "KeyError: insert"
           | _ => Except.error "TypeError: not subscriptable")).map
           (fun parts => JVal.str (quoteQ (pyStrip (String.join parts))))
       | _ => .error "TypeError: not iterable"
     | _ => .error "AttributeError: get"),
   ("rollup", fun cell_val =>
     (cast_to_str is_dateP cell_val "," tz false).map (fun s => JVal.str (quoteQ s))),
   ("select", fun cell_val =>
     match col_def.typeOptions with
     | none => .error "AttributeError: NoneType has no attribute get"
     | some to_ =>
       match cell_val with
       | .arr _ => .error "TypeError: unhashable type"
       | .obj _ => .error "TypeError: unhashable type"
       | .str s => .ok ((to_.lookup s).elim JVal.null JVal.str)
       | _ => .ok .null),
   ("text", fun cell_val => .ok cell_val)]

/-- The 21 airtable column types that have a registered handler. -/
def known_airtable_types : List String :=
  ["autoNumber", "barcode", "button", "checkbox", "collaborator", "computation",
   "count", "date", "foreignKey", "formula", "lookup", "multilineText",
   "multipleAttachment", "multiSelect", "number", "phone", "rating", "richText",
   "rollup", "select", "text"]

/-- One cell of one row in the _get_table_data loop (lines 492-503): a
registered handler decodes the cell; a missing handler logs the
unknown-type warning and passes the raw value through.  The result pairs
the decoded value (or the exception the handler raised) with the warnings
logged. -/
def processCell (is_dateP : String → Bool) (tz : String)
    (user_by_id : Option (List (String × String))) (col_def : ColumnDefinition)
    (cell_val : JVal) : Except String JVal × List String :=
  match (typeHandlers is_dateP tz user_by_id col_def).lookup col_def.type with
  | some handler => (handler cell_val, [])
  | none =>
    (.ok cell_val,
     ["Error: Table contains unknown Airtable column type: " ++ col_def.type])

/-! ## airtable_scraper.py: schema resolution -/

/-- The try-block of _get_column_definition (lines 404-410): build the
option-id to option-name map from typeOptions["choices"].values().  Any
failure anywhere — missing or non-dict choices, a non-record choice, a
choice without id or name — is swallowed by the bare except, leaving
options None.  The comprehension is atomic: it either produces the complete
map or raises, so no partial map can escape.  choiceEntry is one
comprehension step: the (id, name) pair of one entry of choices.values(),
or None standing for the exception a malformed entry raises. -/
def choiceEntry (kv : String × JVal) : Option (JVal × JVal) :=
  match kv.2 with
  | .obj ch =>
    match ch.lookup "id", ch.lookup "name" with
    | some i, some n => some (i, n)
    | _, _ => none
  | _ => none

def extractChoicesRaw (to_ : JVal) : Option (List (JVal × JVal)) :=
  match to_ with
  | .obj tf =>
    match tf.lookup "choices" with
    | some (.obj cs) => cs.mapM choiceEntry
    | _ => none
  | _ => none

/-- pydantic validation of the extracted option map against
dict[str, str]: a non-string id or name raises ValidationError out of
_get_column_definition (that exception is not caught by the bare
except, which only guards the comprehension). -/
def validateOptionPair (kv : JVal × JVal) : Except String (String × String) :=
  match kv with
  | (.str i, .str n) => Except.ok (i, n)
  | _ => Except.error "ValidationError: typeOptions not dict of str to str"

def validateOptionsMap (o : Option (List (JVal × JVal))) :
    Except String (Option (List (String × String))) :=
  match o with
  | none => .ok none
  | some l => (l.mapM validateOptionPair).map some

/-- typeOptions.get("resultType") under a truthy typeOptions, validated as
str or None by the pydantic field. -/
def getResultTypeField (to_ : JVal) : Except String (Option String) :=
  match to_ with
  | .obj tf =>
    match tf.lookup "resultType" with
    | some (.str s) => .ok (some s)
    | some .null => .ok none
    | some _ => .error "ValidationError: resultType"
    | none => .ok none
  | _ => .error "AttributeError: get"

/-- col[k] required to be a string (column ids, names and types are strings:
name and type by pydantic validation; the id is used as a dict key and
Airtable ids are strings). -/
def getStrItem (cf : List (String × JVal)) (k : String) : Except String String :=
  match cf.lookup k with
  | some (.str s) => .ok s
  | some _ => .error "ValidationError"
  | none => .error "KeyError"

/-- The body of the _get_column_definition loop (lines 399-418) for one raw
column: col["typeOptions"] is subscripted first (KeyError when absent); when
truthy, the choices map is extracted all-or-nothing and resultType is read;
the ColumnDefinition is then built from name, type, resultType and
options. -/
def build_column_definition (col : JVal) : Except String (String × ColumnDefinition) :=
  match col with
  | .obj cf => do
    let to_ ← match cf.lookup "typeOptions" with
      | some v => Except.ok v
      | none => Except.error "KeyError: typeOptions"
    let opts ← validateOptionsMap (if jTruthy to_ then extractChoicesRaw to_ else none)
    let result_type ← if jTruthy to_ then getResultTypeField to_ else Except.ok none
    let cid ← getStrItem cf "id"
    let nm ← getStrItem cf "name"
    let ty ← getStrItem cf "type"
    Except.ok (cid, ColumnDefinition.mk nm ty result_type opts)
  | _ => .error "TypeError: not subscriptable"

/-- _get_column_definition (lines 382-419): raises when the table is falsy
or has no columns key, else resolves every raw column in order into the
ordered column-id to ColumnDefinition map.  (A non-list columns value fails
while being iterated or subscripted; duplicate column ids, which real
payloads do not contain, would overwrite in the Python dict but are kept in
order here.) -/
def get_column_definition (table : JVal) : Except String (List (String × ColumnDefinition)) :=
  if !jTruthy table then .error "raise: table does not exist"
  else
    match table with
    | .obj tf =>
      match tf.lookup "columns" with
      | some (.arr cols) => cols.mapM build_column_definition
      | some _ => .error "TypeError: columns not iterable records"
      | none => .error "raise: table does not contain column data"
    | _ => .error "AttributeError: keys"

/-- __get_appBlanket_userInfoById (lines 277-295): under a truthy table,
build the user-id to "First Last" directory from
appBlanket.userInfoById.values(); any failure (missing keys, wrong shapes)
is caught and yields None, as does a falsy table. -/
def getUserInfoById (table : JVal) : Option (List (String × String)) :=
  if !jTruthy table then none
  else
    match table with
    | .obj tf =>
      match tf.lookup "appBlanket" with
      | some (.obj ab) =>
        match ab.lookup "userInfoById" with
        | some (.obj ui) =>
          ui.mapM (fun (kv : String × JVal) =>
            match kv.2 with
            | .obj u =>
              match u.lookup "id", u.lookup "firstName", u.lookup "lastName" with
              | some (.str i), some (.str f), some (.str l) => some (i, f ++ " " ++ l)
              | _, _, _ => none
            | _ => none)
        | _ => none
      | _ => none
    | _ => none

/-- The raw rows list as the two consumers of the raw_rows_json property
immediately use it: a falsy table or missing rows key makes the property
return None, which the consumers then fail to iterate; a present list is
returned as is. -/
def rowsListOf (table : JVal) : Except String (List JVal) :=
  if !jTruthy table then .error "TypeError: NoneType is not iterable"
  else
    match table with
    | .obj tf =>
      match tf.lookup "rows" with
      | some (.arr rs) => .ok rs
      | some _ => .error "TypeError: rows is not a list of rows"
      | none => .error "TypeError: NoneType is not iterable"
    | _ => .error "AttributeError: keys"

/-! ## airtable_scraper.py / table_utils.py: dtype analysis -/

/-- Python type(v).__name__ for a JSON value. -/
def pyTypeName : JVal → String
  | .null => "NoneType"
  | .bool _ => "bool"
  | .num _ => "int"
  | .str _ => "str"
  | .arr _ => "list"
  | .obj _ => "dict"

/-- defaultdict(set) insertion: record type name tn under airtable type ty,
first-insertion order preserved, duplicates ignored. -/
def addDtype (acc : List (String × List String)) (ty tn : String) :
    List (String × List String) :=
  match acc with
  | [] => [(ty, [tn])]
  | (t, ts) :: rest =>
    if t = ty then (t, if ts.contains tn then ts else ts ++ [tn]) :: rest
    else (t, ts) :: addDtype rest ty tn

/-- ColumnTypeAnalyzer.analyze (table_utils lines 55-68): visit every cell
of every row once, collecting the set of native value types observed per
airtable column type.  A row without cellValuesByColumnId or a cell whose
column id is unknown raises. -/
def analyzeRows (rows : List JVal) (col_id_map : List (String × ColumnDefinition)) :
    Except String (List (String × List String)) :=
  rows.foldlM (fun acc r =>
    match r with
    | .obj rf =>
      match rf.lookup "cellValuesByColumnId" with
      | some (.obj cells) =>
        cells.foldlM (fun acc2 (kv : String × JVal) =>
          match col_id_map.lookup kv.1 with
          | some cd => Except.ok (addDtype acc2 cd.type (pyTypeName kv.2))
          | none => Except.error "KeyError: unknown column id") acc
      | some _ => .error "AttributeError: items"
      | none => .error "KeyError: cellValuesByColumnId"
    | _ => .error "TypeError: not subscriptable") []

/-! ## airtable_scraper.py: row materialization -/

/-- Python dict assignment row_vals[key] = v: overwrite in place or
append. -/
def upsertRowVal (acc : List (String × JVal)) (k : String) (v : JVal) :
    List (String × JVal) :=
  match acc with
  | [] => [(k, v)]
  | (a, b) :: rest =>
    if a = k then (a, v) :: rest else (a, b) :: upsertRowVal rest k v

/-- The body of the inner column loop of _get_table_data (lines 482-503)
for one (column id, cell value) item: resolve the column definition (a miss
raises off None), decode the cell, and assign row_vals[sanitized name]. -/
def rowCellStep (is_dateP : String → Bool) (tz : String)
    (user_by_id : Option (List (String × String)))
    (col_id_map : List (String × ColumnDefinition))
    (acc : List (String × JVal)) (kv : String × JVal) :
    Except String (List (String × JVal)) :=
  match col_id_map.lookup kv.1 with
  | none => Except.error "AttributeError: NoneType has no attribute name"
  | some col_def => do
    let v ← (processCell is_dateP tz user_by_id col_def kv.2).1
    Except.ok (upsertRowVal acc (sanitize_field_name col_def.name) v)

/-- One iteration of the outer row loop of _get_table_data (lines 478-504):
walk the row's cellValuesByColumnId items in order, fold rowCellStep over
them to collect row_vals, and instantiate the row: every declared field in
order, absent fields defaulting to None. -/
def materializeRow (is_dateP : String → Bool) (tz : String)
    (user_by_id : Option (List (String × String)))
    (col_id_map : List (String × ColumnDefinition)) (fields : List String)
    (rawRow : JVal) : Except String (List (String × JVal)) :=
  match rawRow with
  | .obj rf =>
    match rf.lookup "cellValuesByColumnId" with
    | some (.obj cells) => do
      let row_vals ← cells.foldlM (rowCellStep is_dateP tz user_by_id col_id_map) []
      Except.ok (fields.map (fun f => (f, objGet row_vals f)))
    | some _ => .error "AttributeError: items"
    | none => .error "KeyError: cellValuesByColumnId"
  | _ => .error "TypeError: not subscriptable"

/-- _get_table_data (lines 421-505): resolve the user directory and the
column map, require the dtype analysis and the dynamic row model to build
(self.dtypes and create_row_model are evaluated before any row is
materialized), then materialize every raw row in source order. -/
def get_table_data (is_dateP : String → Bool) (table : JVal) (tz : String) :
    Except String (List (List (String × JVal))) := do
  let user_by_id := getUserInfoById table
  let col_id_map ← get_column_definition table
  let rows ← rowsListOf table
  let _dtypes ← analyzeRows rows col_id_map
  let fields ← create_row_model col_id_map
  rows.mapM (materializeRow is_dateP tz user_by_id col_id_map fields)

/-! ## airtable_scraper.py: the session object and its lazy properties -/

/-- The state an AirtableScraper object carries after construction, as far
as the derived-data properties consult it: the parsed table payload
(self.__table, the empty dict when the second fetch did not report SUCCESS)
and the configured timezone.  No attribute of the class stores any derived
result. -/
structure Session where
  table : JVal
  timezone : String

/-- The .data property (lines 95-102): _get_table_data, exceptions logged
and turned into None. -/
def dataProperty (is_dateP : String → Bool) (s : Session) :
    Option (List (List (String × JVal))) :=
  (get_table_data is_dateP s.table s.timezone).toOption

/-- The .column_by_id property (lines 86-93): _get_column_definition,
exceptions logged and turned into None. -/
def columnByIdProperty (s : Session) : Option (List (String × ColumnDefinition)) :=
  (get_column_definition s.table).toOption

/-- The .dtypes property (lines 104-111): ColumnTypeAnalyzer over
raw_rows_json and column_by_id (recomputing the column map), exceptions
logged and turned into None. -/
def dtypesProperty (s : Session) : Option (List (String × List String)) :=
  (do
    let col_id_map ← get_column_definition s.table
    let rows ← rowsListOf s.table
    analyzeRows rows col_id_map).toOption

/-- The observable outcome of reading a property once: the value produced,
the object state afterwards, how many HTTP requests the read issued, and
how many times the full derived-state computation ran during it. -/
structure PropertyRead (α : Type) where
  result : α
  sessionAfter : Session
  fetches : Nat
  recomputations : Nat

/-- One read of .data: the property body unconditionally re-runs
_get_table_data on the stored payload (the class keeps no cache attribute
for the result — the functools cache/lru_cache import at line 7 of the
source is commented out), issues no HTTP request (self._get is never
reached from here), and mutates nothing observable. -/
def readData (is_dateP : String → Bool) (s : Session) :
    PropertyRead (Option (List (List (String × JVal)))) :=
  ⟨dataProperty is_dateP s, s, 0, 1⟩

/-- One read of .column_by_id: same shape as readData, recomputing
_get_column_definition each time. -/
def readColumnById (s : Session) : PropertyRead (Option (List (String × ColumnDefinition))) :=
  ⟨columnByIdProperty s, s, 0, 1⟩

/-- One read of .dtypes: same shape, rebuilding the ColumnTypeAnalyzer each
time. -/
def readDtypes (s : Session) : PropertyRead (Option (List (String × List String))) :=
  ⟨dtypesProperty s, s, 0, 1⟩

/-! ## airtable_scraper.py: to_dict -/

/-- Python str.replace of every double quote with nothing. -/
def stripQuotesPy (s : String) : String :=
  String.mk (s.data.filter (fun c => c ≠ '"'))

/-- The two shapes to_dict can return, by orient. -/
inductive ToDictResult where
  | records (rows : List (List (String × String)))
  | index (rows : List (String × List (String × String)))

/-- to_dict (lines 606-642) downstream of the materialized rows and the
column-name header: orient is asserted to be records or index; every field
value is stringified through none_filter; each record is rekeyed by
position onto the header names (header[j] raising IndexError when a record
has more fields than the header); with pass_to_json False every double
quote is removed from every value; records returns the list, index wraps it
under row1, row2, ... (Python collapses duplicate header names in the
rekeyed dict; the association list here keeps every position). -/
def to_dict (rowsIn : List (List (String × JVal))) (header : List String)
    (orient : String) (pass_to_json : Bool) : Except String ToDictResult :=
  if orient ≠ "records" && orient ≠ "index" then
    .error "AssertionError: no orient option"
  else do
    let rows ← rowsIn.mapM (fun (r : List (String × JVal)) => do
      let vals := r.map (fun kv => none_filter kv.2)
      if vals.length ≤ header.length then
        Except.ok ((header.take vals.length).zip vals)
      else Except.error "IndexError: list index out of range")
    let rows := if !pass_to_json
      then rows.map (List.map (fun kv => (kv.1, stripQuotesPy kv.2)))
      else rows
    if orient = "records" then Except.ok (.records rows)
    else Except.ok (.index (rows.enum.map (fun p => ("row" ++ toString (p.1 + 1), p.2))))

/-! ## airtable_scraper.py: text extractors over the first-stage page -/

def startsWithChars : List Char → List Char → Bool
  | [], _ => true
  | _ :: _, [] => false
  | t :: ts, c :: cs => t = c && startsWithChars ts cs

/-- The ([^"]+) capture: an opening quote, one or more non-quote characters,
a closing quote. -/
def captureQuoted (cs : List Char) : Option String :=
  match cs with
  | '"' :: rest =>
    let body := rest.takeWhile (fun c => c ≠ '"')
    if body.isEmpty then none
    else
      match rest.drop body.length with
      | '"' :: _ => some (String.mk body)
      | _ => none
  | _ => none

/-- The (.*?) capture up to a closing quote: possibly empty, stopped by a
newline (re . does not cross lines). -/
def captureQuotedOpt (cs : List Char) : Option String :=
  match cs with
  | '"' :: rest =>
    let body := rest.takeWhile (fun c => c ≠ '"' && c ≠ '\n')
    match rest.drop body.length with
    | '"' :: _ => some (String.mk body)
    | _ => none
  | _ => none

/-- re.search for token\s*"([^"]+)": leftmost full match wins; a position
where the token matches but no quoted body follows is skipped, as the regex
engine does. -/
def searchQuotedAfter (tok : List Char) : List Char → Option String
  | [] => none
  | c :: rest =>
    match (if startsWithChars tok (c :: rest) then
             captureQuoted (((c :: rest).drop tok.length).dropWhile isPyWhitespace)
           else none) with
    | some v => some v
    | none => searchQuotedAfter tok rest

/-- re.search for token\s*"(.*?)", the bootstrap urlWithParams pattern. -/
def searchQuotedOptAfter (tok : List Char) : List Char → Option String
  | [] => none
  | c :: rest =>
    match (if startsWithChars tok (c :: rest) then
             captureQuotedOpt (((c :: rest).drop tok.length).dropWhile isPyWhitespace)
           else none) with
    | some v => some v
    | none => searchQuotedOptAfter tok rest

/-- _get_request_id (lines 317-327): re.search(pattern, page).group(1).
With no match re.search returns None and .group(1) raises AttributeError;
the not-request_id branch returning "" is unreachable because the capture
is [^"]+ and cannot be empty. -/
def get_request_id (page : String) : Except String String :=
  match searchQuotedAfter "requestId:".data page.data with
  | none => .error "AttributeError: NoneType has no attribute group"
  | some request_id => if request_id = "" then .ok "" else .ok request_id

/-- _get_share_id (lines 329-339): same structure over the sharedViewId
pattern. -/
def get_share_id (page : String) : Except String String :=
  match searchQuotedAfter "\"sharedViewId\":".data page.data with
  | none => .error "AttributeError: NoneType has no attribute group"
  | some share_id => if share_id = "" then .ok "" else .ok share_id

/-- _get_new_url (lines 223-234), the first bootstrap extractor: a missing
urlWithParams match raises AttributeError off None.group(1); an empty
capture takes the explicit raise; otherwise escaped separators are
normalized and the origin is prefixed. -/
def get_new_url (page : String) : Except String String :=
  match searchQuotedOptAfter "urlWithParams:".data page.data with
  | none => .error "AttributeError: NoneType has no attribute group"
  | some u =>
    if u = "" then .error "raise: could not parse urlWithParams"
    else .ok ("https://airtable.com" ++ ((u.replace "u002F" "").replace "\\" "/"))

/-- The request_id property (lines 165-172): the extractor's exception is
caught, logged, and None is returned. -/
def requestIdProperty (page : String) : Option String :=
  (get_request_id page).toOption

/-! ## Concrete fixtures used by witnesses and counterexamples -/

/-- A small two-column table payload: a text column and a number column,
with the second row missing its number cell. -/
def exampleTable : JVal :=
  .obj [("columns", .arr
          [.obj [("id", .str "colA"), ("name", .str "Name"), ("type", .str "text"),
                 ("typeOptions", .null)],
           .obj [("id", .str "colB"), ("name", .str "Score"), ("type", .str "number"),
                 ("typeOptions", .null)]]),
        ("rows", .arr
          [.obj [("id", .str "row1"),
                 ("cellValuesByColumnId", .obj [("colA", .str "hello"), ("colB", .num 5)])],
           .obj [("id", .str "row2"),
                 ("cellValuesByColumnId", .obj [("colA", .str "world")])]])]

def exampleSession : Session :=
  Session.mk exampleTable "America/New_York"

/-- A raw column whose single choices entry lacks the name key, so the
option-map extraction fails on it. -/
def badChoiceColumn : JVal :=
  .obj [("typeOptions", .obj [("choices", .obj [("selX", .obj [("id", .str "selX")])])]),
        ("id", .str "c1"), ("name", .str "Status"), ("type", .str "select")]

/-- The sanitized field keys of the cells actually present in one raw row:
the source row covers a column when its cellValuesByColumnId carries the
column id; the key is the sanitized column name.  Used to state which
fields of a materialized row were missing from the source row. -/
def present_field_keys (col_id_map : List (String × ColumnDefinition)) (rawRow : JVal) :
    List String :=
  match rawRow with
  | .obj rf =>
    match rf.lookup "cellValuesByColumnId" with
    | some (.obj cells) =>
      cells.filterMap (fun kv => (col_id_map.lookup kv.1).map
        (fun cd => sanitize_field_name cd.name))
    | _ => []
  | _ => []

/-- The record lists inside a to_dict result, whichever orient produced
it. -/
def recordsOfResult : ToDictResult → List (List (String × String))
  | .records rs => rs
  | .index irs => irs.map Prod.snd

/-! ## Helper lemmas -/

theorem typeHandlers_keys (is_dateP : String → Bool) (tz : String)
    (user_by_id : Option (List (String × String))) (col_def : ColumnDefinition) :
    (typeHandlers is_dateP tz user_by_id col_def).map Prod.fst = known_airtable_types := rfl

theorem lookup_eq_none_of_key_not_mem {β : Type} (l : List (String × β)) (k : String)
    (h : k ∉ l.map Prod.fst) : l.lookup k = none := by
  induction l with
  | nil => rfl
  | cons p rest ih =>
    simp only [List.map_cons, List.mem_cons, not_or] at h
    obtain ⟨h1, h2⟩ := h
    cases p with
    | mk a b =>
      simp only [List.lookup]
      have hba : (k == a) = false := beq_eq_false_iff_ne.mpr (by simpa using h1)
      rw [hba]
      exact ih h2

theorem exceptMap_ok_inv {α β : Type} (f : α → β) (e : Except String α) (b : β)
    (h : e.map f = .ok b) : ∃ a, e = .ok a ∧ b = f a := by
  cases e with
  | error msg => simp [Except.map] at h
  | ok a => exact ⟨a, rfl, by simpa [Except.map] using h.symm⟩

theorem exceptBind_ok_inv {α β : Type} (e : Except String α) (g : α → Except String β)
    (b : β) (h : (e >>= g) = .ok b) : ∃ a, e = .ok a ∧ g a = .ok b := by
  cases e with
  | error msg => simp [Bind.bind, Except.bind] at h
  | ok a => exact ⟨a, rfl, by simpa [Bind.bind, Except.bind] using h⟩

theorem optionMapM_eq_none_of_mem {α β : Type} (f : α → Option β) (l : List α) (a : α)
    (ha : a ∈ l) (hf : f a = none) : l.mapM f = none := by
  induction l with
  | nil => cases ha
  | cons x xs ih =>
    rw [List.mapM_cons]
    rcases List.mem_cons.mp ha with rfl | hmem
    · simp [hf]
    · cases hx : f x with
      | none => simp [hx]
      | some y =>
        simp only [hx, ih hmem]
        rfl

theorem exceptMapM_cons_ok_inv {α β : Type} (f : α → Except String β) (x : α) (xs : List α)
    (res : List β) (h : (x :: xs).mapM f = .ok res) :
    ∃ y ys, f x = .ok y ∧ xs.mapM f = .ok ys ∧ res = y :: ys := by
  rw [List.mapM_cons] at h
  cases hx : f x with
  | error e => rw [hx] at h; simp [Bind.bind, Except.bind] at h
  | ok y =>
    rw [hx] at h
    cases hxs : xs.mapM f with
    | error e => rw [hxs] at h; simp [Bind.bind, Except.bind] at h
    | ok ys =>
      rw [hxs] at h
      simp only [Bind.bind, Except.bind, pure, Except.pure] at h
      exact ⟨y, ys, rfl, rfl, (Except.ok.inj h).symm⟩

theorem exceptMapM_nil_ok_inv {α β : Type} (f : α → Except String β) (res : List β)
    (h : ([] : List α).mapM f = .ok res) : res = [] := by
  simp only [List.mapM_nil, pure, Except.pure] at h
  exact (Except.ok.inj h).symm

theorem exceptMapM_ok_pointwise {α β : Type} (f : α → Except String β) :
    ∀ (l : List α) (res : List β), l.mapM f = .ok res →
      l.length = res.length ∧
      ∀ i (h1 : i < l.length) (h2 : i < res.length),
        f (l.get ⟨i, h1⟩) = .ok (res.get ⟨i, h2⟩) := by
  intro l
  induction l with
  | nil =>
    intro res h
    obtain rfl := exceptMapM_nil_ok_inv f res h
    exact ⟨rfl, by intro i h1 _; cases h1⟩
  | cons x xs ih =>
    intro res h
    obtain ⟨y, ys, hy, hys, rfl⟩ := exceptMapM_cons_ok_inv f x xs res h
    obtain ⟨hlen, hpt⟩ := ih ys hys
    refine ⟨by simpa using hlen, ?_⟩
    intro i h1 h2
    cases i with
    | zero => simpa using hy
    | succ j =>
      exact hpt j (by simpa using h1) (by simpa using h2)

theorem exceptMapM_ok_mem {α β : Type} (f : α → Except String β) :
    ∀ (l : List α) (res : List β), l.mapM f = .ok res →
      ∀ b ∈ res, ∃ a ∈ l, f a = .ok b := by
  intro l
  induction l with
  | nil =>
    intro res h
    obtain rfl := exceptMapM_nil_ok_inv f res h
    intro b hb; cases hb
  | cons x xs ih =>
    intro res h
    obtain ⟨y, ys, hy, hys, rfl⟩ := exceptMapM_cons_ok_inv f x xs res h
    intro b hb
    rcases List.mem_cons.mp hb with rfl | hmem
    · exact ⟨x, List.mem_cons_self x xs, hy⟩
    · obtain ⟨a, ha, hfa⟩ := ih ys hys b hmem
      exact ⟨a, List.mem_cons_of_mem x ha, hfa⟩

theorem validateOptionPair_ok_inv (kv : JVal × JVal) (y : String × String)
    (h : validateOptionPair kv = .ok y) : kv = (JVal.str y.1, JVal.str y.2) := by
  obtain ⟨a, b⟩ := kv
  cases a <;> cases b <;> simp [validateOptionPair] at h <;> simp [← h]

theorem validateOptionsMap_ok_some_inv :
    ∀ (l : List (JVal × JVal)) (m : List (String × String)),
      (l.mapM validateOptionPair) = .ok m →
      l = m.map (fun p => (JVal.str p.1, JVal.str p.2)) := by
  intro l
  induction l with
  | nil =>
    intro m h
    obtain rfl := exceptMapM_nil_ok_inv _ m h
    rfl
  | cons x xs ih =>
    intro m h
    obtain ⟨y, ys, hy, hys, rfl⟩ := exceptMapM_cons_ok_inv _ x xs m h
    simpa [validateOptionPair_ok_inv x y hy] using ih ys hys

theorem lookup_upsertRowVal (acc : List (String × JVal)) (k : String) (v : JVal)
    (f : String) :
    (upsertRowVal acc k v).lookup f = if f = k then some v else acc.lookup f := by
  induction acc with
  | nil =>
    by_cases hfk : f = k
    · simp [upsertRowVal, List.lookup, hfk]
    · simp [upsertRowVal, List.lookup, hfk, beq_eq_false_iff_ne.mpr hfk]
  | cons p rest ih =>
    obtain ⟨a, b⟩ := p
    by_cases hak : a = k
    · subst hak
      by_cases hfa : f = a
      · have h1 : (f == a) = true := beq_iff_eq.mpr hfa
        simp [upsertRowVal, List.lookup, h1, hfa]
      · have h1 : (f == a) = false := beq_eq_false_iff_ne.mpr hfa
        simp [upsertRowVal, List.lookup, h1, hfa]
    · by_cases hfa : f = a
      · have h1 : (f == a) = true := beq_iff_eq.mpr hfa
        have hfk : ¬ f = k := by rw [hfa]; exact hak
        simp [upsertRowVal, List.lookup, hak, h1, hfk]
      · have h1 : (f == a) = false := beq_eq_false_iff_ne.mpr hfa
        simp only [upsertRowVal, if_neg hak, List.lookup, h1]
        exact ih

theorem lookup_map_pair (fields : List String) (g : String → JVal) (f : String)
    (hf : f ∈ fields) :
    (fields.map (fun x => (x, g x))).lookup f = some (g f) := by
  induction fields with
  | nil => cases hf
  | cons x xs ih =>
    rcases List.mem_cons.mp hf with rfl | hmem
    · simp [List.lookup]
    · by_cases hfx : f = x
      · subst hfx; simp [List.lookup]
      · have hba : (f == x) = false := beq_eq_false_iff_ne.mpr hfx
        simp only [List.map_cons, List.lookup, hba]
        exact ih hmem

theorem quote_not_mem_stripQuotesPy (s : String) :
    ('"' : Char) ∉ (stripQuotesPy s).data := by
  simp [stripQuotesPy]

theorem foldlM_rowCellStep_lookup_none (is_dateP : String → Bool) (tz : String)
    (user_by_id : Option (List (String × String)))
    (col_id_map : List (String × ColumnDefinition)) :
    ∀ (cells : List (String × JVal)) (acc row_vals : List (String × JVal)),
      cells.foldlM (rowCellStep is_dateP tz user_by_id col_id_map) acc = .ok row_vals →
      ∀ f, acc.lookup f = none →
        f ∉ cells.filterMap (fun kv => (col_id_map.lookup kv.1).map
              (fun cd => sanitize_field_name cd.name )) →
        row_vals.lookup f = none := by
  intro cells
  induction cells with
  | nil =>
    intro acc row_vals h f hacc _
    simp only [List.foldlM_nil, pure, Except.pure] at h
    rw [← Except.ok.inj h]
    exact hacc
  | cons kv cells ih =>
    intro acc row_vals h f hacc hnm
    rw [List.foldlM_cons] at h
    obtain ⟨acc1, hstep, hrest⟩ := exceptBind_ok_inv _ _ _ h
    unfold rowCellStep at hstep
    cases hcol : col_id_map.lookup kv.1 with
    | none => rw [hcol] at hstep; cases hstep
    | some cd =>
      rw [hcol] at hstep
      obtain ⟨v, _hv, hup⟩ := exceptBind_ok_inv _ _ _ hstep
      have hnm' : f ≠ sanitize_field_name cd.name ∧
          f ∉ cells.filterMap (fun kv => (col_id_map.lookup kv.1).map
            (fun cd => sanitize_field_name cd.name)) := by
        rw [List.filterMap_cons, hcol] at hnm
        simpa using hnm
      obtain ⟨hne, hnm2⟩ := hnm'
      refine ih acc1 row_vals hrest f ?_ hnm2
      rw [← Except.ok.inj hup, lookup_upsertRowVal, if_neg hne]
      exact hacc

theorem materializeRow_shape (is_dateP : String → Bool) (tz : String)
    (user_by_id : Option (List (String × String)))
    (col_id_map : List (String × ColumnDefinition)) (fields : List String)
    (rawRow : JVal) (r : List (String × JVal))
    (h : materializeRow is_dateP tz user_by_id col_id_map fields rawRow = .ok r) :
    r.map Prod.fst = fields ∧
    ∀ f, f ∈ fields → f ∉ present_field_keys col_id_map rawRow →
      r.lookup f = some JVal.null := by
  cases rawRow with
  | obj rf =>
    simp only [materializeRow] at h
    cases hcv : rf.lookup "cellValuesByColumnId" with
    | none => rw [hcv] at h; cases h
    | some cv =>
      rw [hcv] at h
      cases cv with
      | obj cells =>
        obtain ⟨row_vals, hfold, hok⟩ := exceptBind_ok_inv _ _ _ h
        rw [← Except.ok.inj hok]
        constructor
        · rw [List.map_map]
          exact List.map_id fields
        · intro f hf hnp
          rw [lookup_map_pair fields _ f hf]
          have hrv : row_vals.lookup f = none := by
            refine foldlM_rowCellStep_lookup_none is_dateP tz user_by_id col_id_map
              cells [] row_vals hfold f rfl ?_
            simpa [present_field_keys, hcv] using hnp
          simp [objGet, hrv]
      | null => cases h
      | bool b => cases h
      | num n => cases h
      | str s => cases h
      | arr xs => cases h
  | null => simp [materializeRow] at h
  | bool b => simp [materializeRow] at h
  | num n => simp [materializeRow] at h
  | str s => simp [materializeRow] at h
  | arr xs => simp [materializeRow] at h

theorem create_row_model_ok_inv (col_id_map : List (String × ColumnDefinition))
    (fields : List String) (h : create_row_model col_id_map = .ok fields) :
    fields = col_id_map.map (fun c => sanitize_field_name c.2.name) := by
  simp only [create_row_model] at h
  split at h
  · exact (Except.ok.inj h).symm
  · cases h

/-! ## Claims -/

/-- C2 counterexample: decoding the date cell value 2024-01-01T00:00:00.000Z
with timezone America/New_York in date-only mode does NOT yield the claimed
string "January 1, 2024": strftime %B %d, %Y zero-pads the day, so the code
produces "January 01, 2024". -/
theorem c2_counterexample :
    cast_to_str is_date_iso (.str "2024-01-01T00:00:00.000Z") "," "America/New_York" true
        = .ok "January 01, 2024"
      ∧ "January 01, 2024" ≠ "January 1, 2024" := by
  exact ⟨rfl, by decide⟩

/-- C2 (amended): decoding "2024-01-01T00:00:00.000Z" with timezone
America/New_York in date-only mode yields "January 01, 2024" (the UTC
instant converted to the target zone — 2023-12-31 19:00 EST — then one day
added, the day rendered zero-padded by strftime %d); the same string in
non-date-only mode yields the lowercase "12/31/2023 07:00pm" in the target
zone with no day shift. -/
theorem c2_date_decoding :
    cast_to_str is_date_iso (.str "2024-01-01T00:00:00.000Z") "," "America/New_York" true
        = .ok "January 01, 2024"
      ∧ cast_to_str is_date_iso (.str "2024-01-01T00:00:00.000Z") "," "America/New_York" false
        = .ok "12/31/2023 07:00pm" := by
  exact ⟨rfl, rfl⟩

/-- C6: flattening the nested lookup structure
[record A, [record B, raw scalar 3]] with option map 3 to C yields
[A, B, C]: record-like elements contribute foreignRowDisplayName, nested
sequences are recursed into, and raw scalars are resolved through the
option map. -/
theorem c6_lookup_flattening :
    flatten_lookup_column_r
      [.obj [("foreignRowDisplayName", .str "A")],
       .arr [.obj [("foreignRowDisplayName", .str "B")], .num 3]]
      (some [(.num 3, .str "C")]) []
      = [.str "A", .str "B", .str "C"] := rfl

/-- C5: the generic value-to-string cast maps null to "", a list-like to
the separator-join of its elements with None rendered as empty, a mapping
to the join of its values, and every other value — including every string
is_date does not accept — to its direct str() representation, in every case
returning a string without raising.  (Strings is_date does accept take the
date-formatting branch instead, which is the scope carved out by the
claim.) -/
theorem c5_cast_to_str_total (is_dateP : String → Bool) (sep tz : String) (d : Bool) :
    (cast_to_str is_dateP JVal.null sep tz d = .ok "")
    ∧ (∀ xs : List JVal,
        cast_to_str is_dateP (JVal.arr xs) sep tz d = .ok (join_list_like xs sep))
    ∧ (∀ fs : List (String × JVal),
        cast_to_str is_dateP (JVal.obj fs) sep tz d
          = .ok (join_list_like (fs.map Prod.snd) sep))
    ∧ (∀ v : JVal, isScalarB v = true → v ≠ JVal.null →
        (∀ s, v = JVal.str s → is_dateP s = false) →
        cast_to_str is_dateP v sep tz d = .ok (pyStr v)) := by
  refine ⟨rfl, fun xs => rfl, fun fs => rfl, fun v hv hn hs => ?_⟩
  cases v with
  | null => exact absurd rfl hn
  | bool b => rfl
  | num n => rfl
  | str s => simp [cast_to_str, hs s rfl, pyStr]
  | arr xs => cases hv
  | obj fs => cases hv

/-- C5 witness: the non-date scalar branch evaluated at the number 7. -/
theorem c5_witness :
    cast_to_str (fun _ => false) (JVal.num 7) "," "UTC" false = .ok "7" :=
  (c5_cast_to_str_total (fun _ => false) "," "UTC" false).2.2.2 (JVal.num 7) rfl
    (fun h => JVal.noConfusion h) (fun _ h => JVal.noConfusion h)

/-- C9: a cell whose column type has no registered handler passes its raw
value through unchanged into the row record and logs the unknown-type
warning, without raising. -/
theorem c9_unknown_type_passthrough (is_dateP : String → Bool) (tz : String)
    (user_by_id : Option (List (String × String))) (col_def : ColumnDefinition)
    (cell_val : JVal) (h : col_def.type ∉ known_airtable_types) :
    processCell is_dateP tz user_by_id col_def cell_val =
      (.ok cell_val,
       ["Error: Table contains unknown Airtable column type: " ++ col_def.type]) := by
  unfold processCell
  rw [lookup_eq_none_of_key_not_mem _ _ (by
    rw [typeHandlers_keys is_dateP tz user_by_id col_def]; exact h)]

/-- C9 witness: a cell of type unknownType, carrying a raw nested value,
emerges unchanged with the warning. -/
theorem c9_witness :
    processCell (fun _ => false) "America/New_York" none
        (ColumnDefinition.mk "Weird" "unknownType" none none) (JVal.arr [JVal.num 1]) =
      (.ok (JVal.arr [JVal.num 1]),
       ["Error: Table contains unknown Airtable column type: " ++ "unknownType"]) :=
  c9_unknown_type_passthrough (fun _ => false) "America/New_York" none
    (ColumnDefinition.mk "Weird" "unknownType" none none) (JVal.arr [JVal.num 1])
    (by decide)

/-- C4: on a page where the id patterns have no match, the id-style
extractors do not return an empty string: re.search yields None and
.group(1) raises AttributeError (the empty-string branches after it are
unreachable), and the wrapping properties then return None.  The bootstrap
urlWithParams extractor raises as well, as the claim says. -/
theorem c4_extractors_raise_on_no_match :
    get_request_id "<html><body>no embedded parameters</body></html>" =
        .error "AttributeError: NoneType has no attribute group"
      ∧ requestIdProperty "<html><body>no embedded parameters</body></html>" = none
      ∧ get_share_id "<html><body>no embedded parameters</body></html>" =
        .error "AttributeError: NoneType has no attribute group"
      ∧ get_new_url "<html><body>no embedded parameters</body></html>" =
        .error "AttributeError: NoneType has no attribute group" :=
  ⟨rfl, rfl, rfl, rfl⟩

/-- C3 (amended): reading .data, .column_by_id and .dtypes twice on the
same session yields structurally equal results, performs no HTTP fetch, and
leaves the object unchanged — the derived values are pure functions of the
payload stored at construction.  (The memoization half of the original
claim is refuted separately: nothing is cached.) -/
theorem c3_repeated_access_stable (is_dateP : String → Bool) (s : Session) :
    ((readData is_dateP ((readData is_dateP s).sessionAfter)).result
        = (readData is_dateP s).result
      ∧ (readData is_dateP ((readData is_dateP s).sessionAfter)).sessionAfter = s
      ∧ (readData is_dateP s).fetches
          + (readData is_dateP ((readData is_dateP s).sessionAfter)).fetches = 0)
    ∧ ((readColumnById ((readColumnById s).sessionAfter)).result
        = (readColumnById s).result
      ∧ (readColumnById ((readColumnById s).sessionAfter)).sessionAfter = s
      ∧ (readColumnById s).fetches
          + (readColumnById ((readColumnById s).sessionAfter)).fetches = 0)
    ∧ ((readDtypes ((readDtypes s).sessionAfter)).result = (readDtypes s).result
      ∧ (readDtypes ((readDtypes s).sessionAfter)).sessionAfter = s
      ∧ (readDtypes s).fetches + (readDtypes ((readDtypes s).sessionAfter)).fetches = 0) :=
  ⟨⟨rfl, rfl, rfl⟩, ⟨rfl, rfl, rfl⟩, ⟨rfl, rfl, rfl⟩⟩

/-- C3 counterexample: the derived state is not memoized.  Were .data
computed on first access and cached for the object's lifetime, two
successive reads would run the derived-state computation at most once; in
the code the property body re-runs _get_table_data on every read (the
class stores no cache and the functools cache import is commented out), so
two reads run it twice. -/
theorem c3_counterexample :
    ¬ ((readData is_date_iso exampleSession).recomputations
        + (readData is_date_iso
            ((readData is_date_iso exampleSession).sessionAfter)).recomputations ≤ 1) := by
  intro h
  simp [readData] at h

/-- C10: to_dict with pass_to_json False (the default) removes every double
quote from every string field value of every returned record, whichever
orient was requested: no value in the result contains a double-quote
character. -/
theorem c10_to_dict_strips_quotes (rowsIn : List (List (String × JVal)))
    (header : List String) (orient : String) (res : ToDictResult)
    (h : to_dict rowsIn header orient false = .ok res) :
    ∀ rec ∈ recordsOfResult res, ∀ kv ∈ rec, ('"' : Char) ∉ kv.2.data := by
  unfold to_dict at h
  split at h
  · cases h
  · obtain ⟨rows, _hrows, h⟩ := exceptBind_ok_inv _ _ _ h
    simp only [Bool.not_false, if_true] at h
    by_cases ho : orient = "records"
    · rw [if_pos ho] at h
      rw [← Except.ok.inj h]
      intro rec hrec kv hkv
      obtain ⟨r, _, rfl⟩ := List.mem_map.mp hrec
      obtain ⟨p, _, rfl⟩ := List.mem_map.mp hkv
      exact quote_not_mem_stripQuotesPy p.2
    · rw [if_neg ho] at h
      rw [← Except.ok.inj h]
      intro rec hrec kv hkv
      simp only [recordsOfResult, List.map_map] at hrec
      rw [show (Prod.snd ∘ fun p : Nat × List (String × String) =>
            ("row" ++ toString (p.1 + 1), p.2)) = Prod.snd from rfl,
          List.enum_map_snd] at hrec
      obtain ⟨r, _, rfl⟩ := List.mem_map.mp hrec
      obtain ⟨p, _, rfl⟩ := List.mem_map.mp hkv
      exact quote_not_mem_stripQuotesPy p.2

/-- C10 witness: the quote-bearing value say "hi" ends with no quote in the
record to_dict returns. -/
theorem c10_witness : ('"' : Char) ∉ ("say hi" : String).data :=
  c10_to_dict_strips_quotes [[("name", JVal.str "say \"hi\"")]] ["Name"] "records"
    (ToDictResult.records [[("Name", "say hi")]]) rfl
    [("Name", "say hi")] (by simp [recordsOfResult])
    ("Name", "say hi") (by simp)

theorem lookup_some_ne_nil {β : Type} {l : List (String × β)} {k : String} {v : β}
    (h : l.lookup k = some v) : l ≠ [] := by
  intro he
  rw [he] at h
  cases h

theorem extractChoicesRaw_some_inv (to_ : JVal) (l : List (JVal × JVal))
    (h : extractChoicesRaw to_ = some l) :
    ∃ tf chs, to_ = JVal.obj tf ∧ tf.lookup "choices" = some (JVal.obj chs) ∧
      chs.mapM choiceEntry = some l := by
  cases to_ with
  | obj tf =>
    simp only [extractChoicesRaw] at h
    cases hch : tf.lookup "choices" with
    | none => rw [hch] at h; cases h
    | some cv =>
      rw [hch] at h
      cases cv with
      | obj chs => exact ⟨tf, chs, rfl, hch, h⟩
      | null => cases h
      | bool b => cases h
      | num n => cases h
      | str s => cases h
      | arr xs => cases h
  | null => cases h
  | bool b => cases h
  | num n => cases h
  | str s => cases h
  | arr xs => cases h

/-- C8: for every raw column successfully resolved into a ColumnDefinition,
when the typeOptions.choices extraction fails on any entry the resulting
typeOptions is None — never a partial map — and whenever it is some map,
that map is the complete option-id to option-name extraction of every
choices entry in order. -/
theorem c8_options_all_or_nothing
    (cf : List (String × JVal)) (to_ : JVal) (cid : String) (cd : ColumnDefinition)
    (hto : cf.lookup "typeOptions" = some to_)
    (h : build_column_definition (JVal.obj cf) = .ok (cid, cd)) :
    ((∃ tf chs, to_ = JVal.obj tf ∧ tf.lookup "choices" = some (JVal.obj chs) ∧
        ∃ e ∈ chs, choiceEntry e = none) → cd.typeOptions = none)
    ∧ (∀ m, cd.typeOptions = some m →
        ∃ tf chs, to_ = JVal.obj tf ∧ tf.lookup "choices" = some (JVal.obj chs) ∧
          chs.mapM choiceEntry = some (m.map (fun p => (JVal.str p.1, JVal.str p.2)))) := by
  simp only [build_column_definition, hto] at h
  rw [show ∀ (a : JVal) (f : JVal → Except String (String × ColumnDefinition)),
        (Except.ok a >>= f) = f a from fun a f => rfl] at h
  obtain ⟨opts, hopts, h⟩ := exceptBind_ok_inv _ _ _ h
  have main : ∃ rt nm ty, cd = ColumnDefinition.mk nm ty rt opts := by
    cases hjt0 : jTruthy to_ with
    | true =>
      rw [hjt0, if_pos rfl] at h
      obtain ⟨rt, _hrt, h⟩ := exceptBind_ok_inv _ _ _ h
      obtain ⟨cid2, _hcid, h⟩ := exceptBind_ok_inv _ _ _ h
      obtain ⟨nm, _hnm, h⟩ := exceptBind_ok_inv _ _ _ h
      obtain ⟨ty, _hty, h⟩ := exceptBind_ok_inv _ _ _ h
      exact ⟨rt, nm, ty, (congrArg Prod.snd (Except.ok.inj h)).symm⟩
    | false =>
      rw [hjt0] at h
      simp only [Bool.false_eq_true, if_false] at h
      obtain ⟨rt, _hrt, h⟩ := exceptBind_ok_inv _ _ _ h
      obtain ⟨cid2, _hcid, h⟩ := exceptBind_ok_inv _ _ _ h
      obtain ⟨nm, _hnm, h⟩ := exceptBind_ok_inv _ _ _ h
      obtain ⟨ty, _hty, h⟩ := exceptBind_ok_inv _ _ _ h
      exact ⟨rt, nm, ty, (congrArg Prod.snd (Except.ok.inj h)).symm⟩
  obtain ⟨rt, nm, ty, hcd⟩ := main
  constructor
  · rintro ⟨tf, chs, rfl, hch, e, he, hbad⟩
    have hex : extractChoicesRaw (JVal.obj tf) = none := by
      simp only [extractChoicesRaw, hch]
      exact optionMapM_eq_none_of_mem choiceEntry chs e he hbad
    have htr : jTruthy (JVal.obj tf) = true := by
      cases tf with
      | nil => exact absurd rfl (lookup_some_ne_nil hch)
      | cons p rest => rfl
    rw [htr, if_pos rfl, hex] at hopts
    rw [hcd]
    simpa [validateOptionsMap] using (Except.ok.inj hopts).symm
  · intro m hm
    rw [hcd] at hm
    obtain rfl : opts = some m := hm
    cases hjt : jTruthy to_ with
    | false =>
      rw [hjt] at hopts
      simp [validateOptionsMap] at hopts
    | true =>
      rw [hjt, if_pos rfl] at hopts
      cases hex : extractChoicesRaw to_ with
      | none =>
        rw [hex] at hopts
        simp [validateOptionsMap] at hopts
      | some l =>
        rw [hex] at hopts
        simp only [validateOptionsMap] at hopts
        obtain ⟨m2, hm2, hsome⟩ := exceptMap_ok_inv _ _ _ hopts
        obtain rfl : m = m2 := Option.some.inj hsome
        obtain ⟨tf, chs, rfl, hch, hmapm⟩ := extractChoicesRaw_some_inv _ _ hex
        refine ⟨tf, chs, rfl, hch, ?_⟩
        rw [hmapm, ← validateOptionsMap_ok_some_inv l m hm2]

/-- C8 witness: the bad-choices column resolves with typeOptions None. -/
theorem c8_witness : (ColumnDefinition.mk "Status" "select" none none).typeOptions = none :=
  (c8_options_all_or_nothing
      [("typeOptions", .obj [("choices", .obj [("selX", .obj [("id", .str "selX")])])]),
       ("id", .str "c1"), ("name", .str "Status"), ("type", .str "select")]
      (.obj [("choices", .obj [("selX", .obj [("id", .str "selX")])])])
      "c1" (ColumnDefinition.mk "Status" "select" none none) rfl rfl).1
    ⟨[("choices", .obj [("selX", .obj [("id", .str "selX")])])],
     [("selX", .obj [("id", .str "selX")])], rfl, rfl,
     ("selX", .obj [("id", .str "selX")]), by simp, rfl⟩

theorem mem_keys_of_lookup_some {β : Type} (l : List (String × β)) (k : String) (v : β)
    (h : l.lookup k = some v) : k ∈ l.map Prod.fst := by
  by_contra hn
  rw [lookup_eq_none_of_key_not_mem l k hn] at h
  cases h

theorem collabHandler_ok_scalar (u : Option (List (String × String))) (cv out : JVal)
    (h : collabHandler u cv = .ok out) : isScalarB out = true := by
  unfold collabHandler at h
  cases u with
  | none => cases h
  | some d =>
    cases cv with
    | arr xs => cases h
    | obj fs => cases h
    | str s =>
      rw [← Except.ok.inj h]
      cases d.lookup s <;> rfl
    | null => rw [← Except.ok.inj h]; rfl
    | bool b => rw [← Except.ok.inj h]; rfl
    | num n => rw [← Except.ok.inj h]; rfl

/-- C1 (amended): for every known airtable column type, whenever its handler
succeeds the output is a scalar — a string, a number, a boolean or null —
never a raw nested structure, provided that the raw values reaching the
identity-passthrough handlers (autoNumber, count, number, phone, rating,
text) are scalars and that the text/url fields the barcode/button handlers
extract are scalars.  (The output can be a number: the identity handlers
pass numeric cells through, which refutes the never-a-number half of the
original claim; see the counterexample.) -/
theorem c1_known_handler_scalar_output
    (is_dateP : String → Bool) (tz : String) (user_by_id : Option (List (String × String)))
    (col_def : ColumnDefinition) (t : String) (handler : JVal → Except String JVal)
    (cell_val out : JVal)
    (hk : (typeHandlers is_dateP tz user_by_id col_def).lookup t = some handler)
    (hok : handler cell_val = .ok out)
    (hid : t ∈ ["autoNumber", "count", "number", "phone", "rating", "text"] →
      isScalarB cell_val = true)
    (hbar : t = "barcode" → ∀ fs, cell_val = JVal.obj fs → isScalarB (objGet fs "text") = true)
    (hbtn : t = "button" → ∀ fs, cell_val = JVal.obj fs → isScalarB (objGet fs "url") = true) :
    isScalarB out = true := by
  have ht : t ∈ known_airtable_types := by
    rw [← typeHandlers_keys is_dateP tz user_by_id col_def]
    exact mem_keys_of_lookup_some _ _ _ hk
  simp only [known_airtable_types] at ht
  fin_cases ht
  · -- autoNumber
    obtain rfl := Option.some.inj hk
    exact (Except.ok.inj hok) ▸ hid (by decide)
  · -- barcode
    obtain rfl := Option.some.inj hk
    cases cell_val with
    | obj fs => exact (Except.ok.inj hok) ▸ hbar rfl fs rfl
    | null => cases hok
    | bool b => cases hok
    | num n => cases hok
    | str s => cases hok
    | arr xs => cases hok
  · -- button
    obtain rfl := Option.some.inj hk
    cases cell_val with
    | obj fs => exact (Except.ok.inj hok) ▸ hbtn rfl fs rfl
    | null => cases hok
    | bool b => cases hok
    | num n => cases hok
    | str s => cases hok
    | arr xs => cases hok
  · -- checkbox
    obtain rfl := Option.some.inj hk
    rw [← Except.ok.inj hok]
    split <;> rfl
  · -- collaborator
    obtain rfl := Option.some.inj hk
    exact collabHandler_ok_scalar user_by_id cell_val out hok
  · -- computation
    obtain rfl := Option.some.inj hk
    exact collabHandler_ok_scalar user_by_id cell_val out hok
  · -- count
    obtain rfl := Option.some.inj hk
    exact (Except.ok.inj hok) ▸ hid (by decide)
  · -- date
    obtain rfl := Option.some.inj hk
    obtain ⟨a, _, rfl⟩ := exceptMap_ok_inv _ _ _ hok
    rfl
  · -- foreignKey
    obtain rfl := Option.some.inj hk
    cases cell_val with
    | arr fs =>
      obtain ⟨a, _, rfl⟩ := exceptMap_ok_inv _ _ _ hok
      rfl
    | null => cases hok
    | bool b => cases hok
    | num n => cases hok
    | str s => cases hok
    | obj fs => cases hok
  · -- formula
    obtain rfl := Option.some.inj hk
    obtain ⟨a, _, rfl⟩ := exceptMap_ok_inv _ _ _ hok
    rfl
  · -- lookup
    obtain rfl := Option.some.inj hk
    cases cell_val with
    | obj fs =>
      simp only [] at hok
      cases hl : fs.lookup "valuesByForeignRowId" with
      | none => rw [hl] at hok; cases hok
      | some cv2 =>
        rw [hl] at hok
        cases cv2 with
        | obj vs => exact (Except.ok.inj hok) ▸ rfl
        | null => cases hok
        | bool b => cases hok
        | num n => cases hok
        | str s => cases hok
        | arr xs => cases hok
    | null => cases hok
    | bool b => cases hok
    | num n => cases hok
    | str s => cases hok
    | arr xs => cases hok
  · -- multilineText
    obtain rfl := Option.some.inj hk
    exact (Except.ok.inj hok) ▸ rfl
  · -- multipleAttachment
    obtain rfl := Option.some.inj hk
    cases cell_val with
    | arr fs =>
      obtain ⟨a, _, rfl⟩ := exceptMap_ok_inv _ _ _ hok
      rfl
    | null => cases hok
    | bool b => cases hok
    | num n => cases hok
    | str s => cases hok
    | obj fs => cases hok
  · -- multiSelect
    obtain rfl := Option.some.inj hk
    cases hto : col_def.typeOptions with
    | none => rw [hto] at hok; cases hok
    | some to_ =>
      rw [hto] at hok
      cases cell_val with
      | arr vals =>
        obtain ⟨a, _, rfl⟩ := exceptMap_ok_inv _ _ _ hok
        rfl
      | null => cases hok
      | bool b => cases hok
      | num n => cases hok
      | str s => cases hok
      | obj fs => cases hok
  · -- number
    obtain rfl := Option.some.inj hk
    exact (Except.ok.inj hok) ▸ hid (by decide)
  · -- phone
    obtain rfl := Option.some.inj hk
    exact (Except.ok.inj hok) ▸ hid (by decide)
  · -- rating
    obtain rfl := Option.some.inj hk
    exact (Except.ok.inj hok) ▸ hid (by decide)
  · -- richText
    obtain rfl := Option.some.inj hk
    cases cell_val with
    | obj fs =>
      simp only [] at hok
      cases hdoc : objGet fs "documentValue" with
      | arr sections =>
        rw [hdoc] at hok
        obtain ⟨a, _, rfl⟩ := exceptMap_ok_inv _ _ _ hok
        rfl
      | null => rw [hdoc] at hok; cases hok
      | bool b => rw [hdoc] at hok; cases hok
      | num n => rw [hdoc] at hok; cases hok
      | str s => rw [hdoc] at hok; cases hok
      | obj fs2 => rw [hdoc] at hok; cases hok
    | null => cases hok
    | bool b => cases hok
    | num n => cases hok
    | str s => cases hok
    | arr xs => cases hok
  · -- rollup
    obtain rfl := Option.some.inj hk
    obtain ⟨a, _, rfl⟩ := exceptMap_ok_inv _ _ _ hok
    rfl
  · -- select
    obtain rfl := Option.some.inj hk
    cases hto : col_def.typeOptions with
    | none => rw [hto] at hok; cases hok
    | some to_ =>
      rw [hto] at hok
      cases cell_val with
      | arr xs => cases hok
      | obj fs => cases hok
      | str s =>
        rw [← Except.ok.inj hok]
        cases to_.lookup s <;> rfl
      | null => rw [← Except.ok.inj hok]; rfl
      | bool b => rw [← Except.ok.inj hok]; rfl
      | num n => rw [← Except.ok.inj hok]; rfl
  · -- text
    obtain rfl := Option.some.inj hk
    exact (Except.ok.inj hok) ▸ hid (by decide)

/-- C1 counterexample: the claim that every known-type handler outputs a
string or null fails on the autoNumber handler, which passes the number 5
through as a number. -/
theorem c1_counterexample :
    ¬ (∀ (t : String) (handler : JVal → Except String JVal) (cell_val out : JVal),
        (typeHandlers (fun _ => false) "America/New_York" none
          (ColumnDefinition.mk "N" "autoNumber" none none)).lookup t = some handler →
        handler cell_val = .ok out →
        (out = JVal.null ∨ ∃ s, out = JVal.str s)) := by
  intro hall
  rcases hall "autoNumber" (fun cell_val => .ok cell_val) (JVal.num 5) (JVal.num 5)
      rfl rfl with h | ⟨s, h⟩
  · cases h
  · cases h

/-- C1 witness: the checkbox handler on a truthy cell yields the scalar
string checked. -/
theorem c1_witness : isScalarB (JVal.str "checked") = true :=
  c1_known_handler_scalar_output (fun _ => false) "America/New_York" none
    (ColumnDefinition.mk "Done" "checkbox" none none) "checkbox"
    (fun cell_val => .ok (if jTruthy cell_val then .str "checked" else .null))
    (JVal.bool true) (JVal.str "checked")
    rfl rfl (fun h => absurd h (by decide)) (fun h => absurd h (by decide))
    (fun h => absurd h (by decide))

/-- C7: for a session whose table data materializes, every row record
exposes exactly the same ordered field set — the sanitized column names in
column order at resolution time — and every field whose cell is missing
from the source row carries None in that row's record. -/
theorem c7_uniform_row_shape
    (is_dateP : String → Bool) (s : Session) (rows : List (List (String × JVal)))
    (col_id_map : List (String × ColumnDefinition)) (fields : List String)
    (rawRows : List JVal)
    (h : get_table_data is_dateP s.table s.timezone = .ok rows)
    (hc : get_column_definition s.table = .ok col_id_map)
    (hr : rowsListOf s.table = .ok rawRows)
    (hf : create_row_model col_id_map = .ok fields) :
    fields = col_id_map.map (fun c => sanitize_field_name c.2.name)
    ∧ (∀ r ∈ rows, r.map Prod.fst = fields)
    ∧ rows.length = rawRows.length
    ∧ (∀ i (hi : i < rows.length) (hi2 : i < rawRows.length) (f : String),
        f ∈ fields → f ∉ present_field_keys col_id_map (rawRows.get ⟨i, hi2⟩) →
        (rows.get ⟨i, hi⟩).lookup f = some JVal.null) := by
  simp only [get_table_data] at h
  obtain ⟨cm, hcm, h⟩ := exceptBind_ok_inv _ _ _ h
  obtain rfl : col_id_map = cm := by rw [hc] at hcm; exact Except.ok.inj hcm
  obtain ⟨rr, hrr, h⟩ := exceptBind_ok_inv _ _ _ h
  obtain rfl : rawRows = rr := by rw [hr] at hrr; exact Except.ok.inj hrr
  obtain ⟨dt, _hdt, h⟩ := exceptBind_ok_inv _ _ _ h
  obtain ⟨fl, hfl, h⟩ := exceptBind_ok_inv _ _ _ h
  obtain rfl : fields = fl := by rw [hf] at hfl; exact Except.ok.inj hfl
  refine ⟨create_row_model_ok_inv _ _ hf, ?_, ?_, ?_⟩
  · intro r hrmem
    obtain ⟨raw, _, hmat⟩ := exceptMapM_ok_mem _ _ _ h r hrmem
    exact (materializeRow_shape _ _ _ _ _ _ _ hmat).1
  · exact ((exceptMapM_ok_pointwise _ _ _ h).1).symm
  · intro i hi hi2 f hfm hnp
    have hpt := (exceptMapM_ok_pointwise _ _ _ h).2 i hi2 hi
    exact (materializeRow_shape _ _ _ _ _ _ _ hpt).2 f hfm hnp

/-- C7 witness: on the two-column fixture, the second row is missing its
Score cell and its record carries None at the sanitized key score. -/
theorem c7_witness :
    (([("name", JVal.str "world"), ("score", JVal.null)] :
        List (String × JVal)).lookup "score") = some JVal.null :=
  (c7_uniform_row_shape is_date_iso exampleSession
      [[("name", JVal.str "hello"), ("score", JVal.num 5)],
       [("name", JVal.str "world"), ("score", JVal.null)]]
      [("colA", ColumnDefinition.mk "Name" "text" none none),
       ("colB", ColumnDefinition.mk "Score" "number" none none)]
      ["name", "score"]
      [.obj [("id", .str "row1"),
             ("cellValuesByColumnId", .obj [("colA", .str "hello"), ("colB", .num 5)])],
       .obj [("id", .str "row2"),
             ("cellValuesByColumnId", .obj [("colA", .str "world")])]]
      rfl rfl rfl rfl).2.2.2 1 (by decide) (by decide) "score" (by decide) (by decide)
